import Mathlib

/-!
Formal model of the resumable-upload core of the tinymce `yt-upload` plugin
(`vendor/assets/javascripts/tinymce/plugins/yt-upload/plugin.js`).

The JavaScript source is event-driven: XHR handlers mutate a `MediaUploader`
object and fire callbacks or timers.  We embed it shallowly: the mutable
object becomes an explicit state record, and each handler becomes a pure
function from the state and the incoming response to the new state together
with the list of observable actions it performs (callback invocations,
immediate requests, scheduled timers).  Machine numbers are modelled as
`Nat`/`Int`/`Rat` (JavaScript numbers never overflow in the ranges involved
here), and `Math.random()` is modelled as an explicit rational parameter
`r` with `0 ≤ r < 1`.
-/

namespace YtUpload

/-- Source line 1: `var STATUS_POLLING_INTERVAL_MILLIS = 60 * 1000;`. -/
def STATUS_POLLING_INTERVAL_MILLIS : ℕ := 60 * 1000

/-! ## RetryHandler (source lines 28-70) -/

/-- State of the `RetryHandler` object: `this.interval` and
`this.maxInterval` (constructor sets 1000 and 60*1000). -/
structure RetryHandler where
  interval : ℤ
  maxInterval : ℤ

/-- The `RetryHandler` constructor: interval 1000 ms, maxInterval 60000 ms. -/
def RetryHandler.init : RetryHandler :=
  { interval := 1000, maxInterval := 60 * 1000 }

/-- `RetryHandler.prototype.getRandomInt_(min, max)` =
`Math.floor(Math.random() * (max - min + 1) + min)`, with `Math.random()`
made explicit as a rational `r` (intended range `0 ≤ r < 1`). -/
def getRandomInt_ (lo hi : ℤ) (r : ℚ) : ℤ :=
  ⌊r * ((hi : ℚ) - (lo : ℚ) + 1) + (lo : ℚ)⌋

/-- `RetryHandler.prototype.nextInterval_()` =
`Math.min(this.interval * 2 + this.getRandomInt_(0, 1000), this.maxInterval)`. -/
def nextInterval_ (h : RetryHandler) (r : ℚ) : ℤ :=
  min (h.interval * 2 + getRandomInt_ 0 1000 r) h.maxInterval

/-- `RetryHandler.prototype.retry(fn)`: `setTimeout(fn, this.interval)` then
`this.interval = this.nextInterval_()`.  Returns the new handler state and
the delay used for the scheduled timer (the pre-update interval). -/
def RetryHandler.retry (h : RetryHandler) (r : ℚ) : RetryHandler × ℤ :=
  ({ h with interval := nextInterval_ h r }, h.interval)

/-- `RetryHandler.prototype.reset()`: `this.interval = 1000`. -/
def RetryHandler.reset (h : RetryHandler) : RetryHandler :=
  { h with interval := 1000 }

/-! ## Range-header parsing (source lines 203-208)

`extractRange_` does `range.match(/\d+/g).pop()`: all maximal runs of
decimal digits in the header string, keeping the last one.  We model the
regex scan over the string's character list. -/

/-- `parseInt(s, 10)` on a run of decimal digits (48 is the code of the
digit zero). -/
def natOfDigits (cs : List Char) : ℕ :=
  cs.foldl (fun n c => n * 10 + (c.toNat - 48)) 0

/-- Scanner for `/\d+/g`: accumulate the current digit run (reversed) and
emit it when a non-digit (or the end) is reached. -/
def digitRunsAux : List Char → List Char → List ℕ
  | [], acc => if acc.isEmpty then [] else [natOfDigits acc.reverse]
  | c :: cs, acc =>
    if c.isDigit then digitRunsAux cs (c :: acc)
    else if acc.isEmpty then digitRunsAux cs []
    else natOfDigits acc.reverse :: digitRunsAux cs []

/-- All matches of `/\d+/g` in a string, as numbers, in order. -/
def digitRuns (s : String) : List ℕ :=
  digitRunsAux s.data []

/-! ## MediaUploader state and observable actions (source lines 99-251) -/

/-- The mutable fields of a `MediaUploader` object that the transfer
handlers read or write: `this.file.size`, `this.file.type`,
`this.contentType`, `this.offset`, `this.chunkSize`, `this.retryHandler`,
`this.url` (the session URL; `Option` because the initiation handler
stores the raw `Location` response header, which may be absent). -/
structure MediaUploader where
  fileSize : ℕ
  fileType : String
  contentType : String
  offset : ℕ
  chunkSize : ℕ
  retryHandler : RetryHandler
  url : Option String

/-- Which of the uploader's handler functions an XHR is wired to. -/
inductive HandlerTag where
  | contentUploadSuccess
  | contentUploadError
  | uploadError

/-- The observable content of an XHR built by `sendFile_` or `resume_`:
method, target URL, the headers that carry protocol content, the byte span
of the body sent ([bodyStart, bodyEnd)), whether `send()` was called with
no body at all, and the wired response handlers. -/
structure XhrRequest where
  method : String
  url : Option String
  contentTypeHeader : Option String
  xUploadContentType : Option String
  contentRange : Option String
  bodyStart : ℕ
  bodyEnd : ℕ
  bodyEmpty : Bool
  onload : HandlerTag
  onerror : HandlerTag

/-- An observable effect of one handler invocation: invoke the caller's
completion or error callback, send an XHR immediately, or schedule a
resume probe through `RetryHandler.retry` (`setTimeout`) after the given
delay in milliseconds. -/
inductive Action where
  | completeCallback (response : String)
  | errorCallback (response : String)
  | sendRequest (req : XhrRequest)
  | scheduleResume (delayMillis : ℤ)

/-- `Blob.prototype.slice(start, end)` with non-negative arguments: both
positions are clamped to the blob size and an inverted span is empty.
Returns the byte span actually extracted. -/
def blobSlice (size start finish : ℕ) : ℕ × ℕ :=
  (min start size, max (min start size) (min finish size))

/-- The `end` variable of `sendFile_` (source lines 157-163): initialised
to `this.file.size` and reassigned to
`Math.min(this.offset + this.chunkSize, this.file.size)` only inside
`if (this.offset || this.chunkSize) { if (this.chunkSize) ... }`.
When the outer guard is false `chunkSize` is 0, so the nesting collapses
to a single test on `chunkSize`. -/
def sendFileEnd (m : MediaUploader) : ℕ :=
  if m.chunkSize ≠ 0 then min (m.offset + m.chunkSize) m.fileSize else m.fileSize

/-- The byte span `sendFile_` passes to `xhr.send`: the whole file unless
`this.offset || this.chunkSize`, in which case `content.slice(offset, end)`. -/
def sendFileBody (m : MediaUploader) : ℕ × ℕ :=
  if m.offset ≠ 0 ∨ m.chunkSize ≠ 0 then blobSlice m.fileSize m.offset (sendFileEnd m)
  else (0, m.fileSize)

/-- The XHR built by `MediaUploader.prototype.sendFile_` (source lines
155-178): `PUT` to `this.url`, `Content-Type`, `Content-Range:
bytes {offset}-{end-1}/{size}`, `X-Upload-Content-Type: this.file.type`,
body = the sliced content, handlers `onContentUploadSuccess_` /
`onContentUploadError_`. -/
def transferRequest (m : MediaUploader) : XhrRequest :=
  { method := "PUT"
    url := m.url
    contentTypeHeader := some m.contentType
    xUploadContentType := some m.fileType
    contentRange := some ("bytes " ++ toString m.offset ++ "-"
      ++ toString ((sendFileEnd m : ℤ) - 1) ++ "/" ++ toString m.fileSize)
    bodyStart := (sendFileBody m).1
    bodyEnd := (sendFileBody m).2
    bodyEmpty := false
    onload := HandlerTag.contentUploadSuccess
    onerror := HandlerTag.contentUploadError }

/-- `MediaUploader.prototype.sendFile_`: issues the transfer XHR. -/
def sendFile_ (m : MediaUploader) : List Action :=
  [Action.sendRequest (transferRequest m)]

/-- The XHR built by `MediaUploader.prototype.resume_` (source lines
185-196): `PUT` to `this.url`, `Content-Range: bytes */{size}`,
`X-Upload-Content-Type`, `xhr.send()` with no body, same handlers as the
content transfer. -/
def resumeRequest (m : MediaUploader) : XhrRequest :=
  { method := "PUT"
    url := m.url
    contentTypeHeader := none
    xUploadContentType := some m.fileType
    contentRange := some ("bytes */" ++ toString m.fileSize)
    bodyStart := 0
    bodyEnd := 0
    bodyEmpty := true
    onload := HandlerTag.contentUploadSuccess
    onerror := HandlerTag.contentUploadError }

/-- `MediaUploader.prototype.resume_`: issues the status-probe XHR. -/
def resume_ (m : MediaUploader) : List Action :=
  [Action.sendRequest (resumeRequest m)]

/-- What a transfer (or probe) XHR delivers to a handler: `e.target.status`
(0 on a network-level error), the `Range` response header (absent = `none`)
and `e.target.response`. -/
structure TransferResponse where
  status : ℕ
  rangeHeader : Option String
  response : String

/-- `MediaUploader.prototype.extractRange_` (source lines 203-208):
`var range = xhr.getResponseHeader('Range'); if (range) { this.offset =
parseInt(range.match(/\d+/g).pop(), 10) + 1; }`.  An absent or empty
header is falsy, so the offset is untouched.  On a non-empty header with
no digit run, `match` returns `null` and `.pop()` throws a `TypeError`
that aborts the calling handler: that outcome is modelled as `none`. -/
def extractRange_ (m : MediaUploader) (range : Option String) : Option MediaUploader :=
  match range with
  | none => some m
  | some s =>
    if s = "" then some m
    else
      match (digitRuns s).getLast? with
      | none => none
      | some n => some { m with offset := n + 1 }

/-- `MediaUploader.prototype.onContentUploadSuccess_` (source lines
218-226): 200/201 ⇒ `this.onComplete(e.target.response)`; 308 ⇒
`extractRange_`, `retryHandler.reset()`, `sendFile_()`; any other status ⇒
fall through both branches, doing nothing. -/
def onContentUploadSuccess_ (m : MediaUploader) (e : TransferResponse) :
    MediaUploader × List Action :=
  if e.status = 200 ∨ e.status = 201 then
    (m, [Action.completeCallback e.response])
  else if e.status = 308 then
    match extractRange_ m e.rangeHeader with
    | none => (m, [])
    | some m1 =>
      ({ m1 with retryHandler := m1.retryHandler.reset },
        sendFile_ { m1 with retryHandler := m1.retryHandler.reset })
  else
    (m, [])

/-- `MediaUploader.prototype.onContentUploadError_` (source lines 235-241):
`if (e.target.status && e.target.status < 500)` ⇒
`this.onError(e.target.response)`; else
`this.retryHandler.retry(this.resume_.bind(this))`, which schedules the
probe after the current interval and advances the interval. -/
def onContentUploadError_ (m : MediaUploader) (e : TransferResponse) (r : ℚ) :
    MediaUploader × List Action :=
  if e.status ≠ 0 ∧ e.status < 500 then
    (m, [Action.errorCallback e.response])
  else
    ({ m with retryHandler := (m.retryHandler.retry r).1 },
      [Action.scheduleResume (m.retryHandler.retry r).2])

/-- `MediaUploader.prototype.onUploadError_` (source lines 249-251):
`this.onError(e.target.response)` — no retry of the initiation request. -/
def onUploadError_ (m : MediaUploader) (response : String) :
    MediaUploader × List Action :=
  (m, [Action.errorCallback response])

/-- What the initiation XHR delivers: `e.target.status`, the `Location`
response header, and `e.target.response`. -/
structure InitResponse where
  status : ℕ
  locationHeader : Option String
  response : String

/-- The `xhr.onload` handler inside `MediaUploader.prototype.upload`
(source lines 137-145): status < 400 ⇒ `this.url =
e.target.getResponseHeader('Location'); this.sendFile_();`, otherwise
`this.onUploadError_(e)`. -/
def uploadOnload (m : MediaUploader) (e : InitResponse) :
    MediaUploader × List Action :=
  if e.status < 400 then
    ({ m with url := e.locationHeader }, sendFile_ { m with url := e.locationHeader })
  else
    onUploadError_ m e.response

/-! ## Transcode status poller (source lines 444-480) -/

/-- What one `gapi.client.request` status query delivers to the callback of
`UploadVideo.prototype.pollForVideoStatus`: `response.error` (with its
message) or the items' `status.uploadStatus` and `player.embedHtml`. -/
structure PollResponse where
  error : Option String
  uploadStatus : String
  embedHtml : String

/-- An observable effect of one poll callback invocation. -/
inductive PollAction where
  | consoleLog (message : String)
  | logContext
  | appendStatus (html : String)
  | triggerPasteWithUrl (url : String)
  | appendPlayer (embedHtml : String)
  | setPollTimeout (delayMillis : ℕ)

/-- The callback of `UploadVideo.prototype.pollForVideoStatus` (source
lines 451-478): on `response.error` log and re-arm the fixed timer; else
switch on `uploadStatus`: `uploaded` ⇒ append a status line, log, set the
video URL (triggering a paste event) and re-arm the timer; `processed` ⇒
append the player embed and a final status line; default ⇒ append a
transcoding-failed line. -/
def pollForVideoStatusCallback (videoId : String) (resp : PollResponse) :
    List PollAction :=
  match resp.error with
  | some msg => [PollAction.consoleLog msg,
      PollAction.setPollTimeout STATUS_POLLING_INTERVAL_MILLIS]
  | none =>
    if resp.uploadStatus = "uploaded" then
      [PollAction.appendStatus ("<li>Upload status: " ++ resp.uploadStatus ++ "</li>"),
       PollAction.logContext,
       PollAction.triggerPasteWithUrl ("https://www.youtube.com/watch?v=" ++ videoId),
       PollAction.setPollTimeout STATUS_POLLING_INTERVAL_MILLIS]
    else if resp.uploadStatus = "processed" then
      [PollAction.appendPlayer resp.embedHtml,
       PollAction.appendStatus "<li>Final status.</li>"]
    else
      [PollAction.appendStatus "<li>Transcoding failed.</li>"]

/-! ## Spec-side definitions and operation sequences -/

/-- The end of the transfer range as the spec words it: "if `chunkSizeBytes`
is 0, send the entire remaining content from `offsetBytes` to end;
otherwise send `min(offsetBytes + chunkSizeBytes, sizeBytes)`". -/
def specTransferEnd (m : MediaUploader) : ℕ :=
  if m.chunkSize = 0 then m.fileSize else min (m.offset + m.chunkSize) m.fileSize

/-- A well-behaved `Range` response header relative to the current offset
and file size: if it parses to some last number `u`, then `u + 1` is at
least the current offset and at most the file size. -/
def rangeOk (offset size : ℕ) : Option String → Bool
  | none => true
  | some s =>
    match (digitRuns s).getLast? with
    | none => true
    | some u => decide (offset ≤ u + 1) && decide (u + 1 ≤ size)

/-- One operation on a `RetryHandler`: a retry (with the `Math.random()`
draw made explicit) or a reset. -/
inductive BackoffOp where
  | retryOp (r : ℚ)
  | resetOp

/-- A retry operation's random draw is in the range `Math.random()`
guarantees. -/
def BackoffOp.Valid : BackoffOp → Prop
  | .retryOp r => 0 ≤ r ∧ r < 1
  | .resetOp => True

/-- Apply one backoff operation to the handler state. -/
def applyOp (h : RetryHandler) : BackoffOp → RetryHandler
  | .retryOp r => (h.retry r).1
  | .resetOp => h.reset

/-- Apply a sequence of backoff operations, left to right. -/
def applyOps (h : RetryHandler) : List BackoffOp → RetryHandler
  | [] => h
  | op :: ops => applyOps (applyOp h op) ops

/-! ## Helper lemmas -/

/-- With `0 ≤ r < 1`, the jitter term `getRandomInt_(0, 1000)` lands in
`[0, 1000]` (both ends inclusive: `⌊r * 1001⌋` reaches 1000). -/
lemma getRandomInt_bounds (r : ℚ) (h0 : 0 ≤ r) (h1 : r < 1) :
    0 ≤ getRandomInt_ 0 1000 r ∧ getRandomInt_ 0 1000 r ≤ 1000 := by
  unfold getRandomInt_
  have he : ((1000 : ℤ) : ℚ) - ((0 : ℤ) : ℚ) + 1 = 1001 := by norm_num
  rw [he]
  constructor
  · push_cast
    rw [add_zero]
    exact Int.floor_nonneg.2 (by positivity)
  · push_cast
    rw [add_zero]
    have hlt : r * 1001 < ((1001 : ℤ) : ℚ) := by
      push_cast
      nlinarith
    have := Int.floor_lt.2 hlt
    omega

/-- `nextInterval_` stays in `[1000, 60000]` and does not decrease, given a
valid random draw and an in-range current interval. -/
lemma nextInterval_bounds (h : RetryHandler) (r : ℚ) (h0 : 0 ≤ r) (h1 : r < 1)
    (hlo : 1000 ≤ h.interval) (hhi : h.interval ≤ 60000)
    (hmax : h.maxInterval = 60000) :
    1000 ≤ nextInterval_ h r ∧ nextInterval_ h r ≤ 60000
      ∧ h.interval ≤ nextInterval_ h r := by
  obtain ⟨j0, j1⟩ := getRandomInt_bounds r h0 h1
  unfold nextInterval_
  rw [hmax]
  omega

/-- The reachability invariant of the retry handler: interval in range and
the cap field untouched. -/
def RetryHandler.Inv (h : RetryHandler) : Prop :=
  1000 ≤ h.interval ∧ h.interval ≤ 60000 ∧ h.maxInterval = 60000

/-- A single valid operation preserves the retry-handler invariant. -/
lemma applyOp_inv (h : RetryHandler) (op : BackoffOp) (hI : h.Inv)
    (hv : op.Valid) : (applyOp h op).Inv := by
  obtain ⟨hlo, hhi, hmax⟩ := hI
  cases op with
  | resetOp =>
    refine ⟨?_, ?_, ?_⟩ <;> simp [applyOp, RetryHandler.reset, hmax]
  | retryOp r =>
    obtain ⟨h0, h1⟩ := hv
    obtain ⟨b1, b2, _⟩ := nextInterval_bounds h r h0 h1 hlo hhi hmax
    exact ⟨b1, b2, hmax⟩

/-- Any sequence of valid operations preserves the retry-handler
invariant. -/
lemma applyOps_inv (ops : List BackoffOp) :
    ∀ h : RetryHandler, h.Inv → (∀ op ∈ ops, op.Valid) → (applyOps h ops).Inv := by
  induction ops with
  | nil => intro h hI _; exact hI
  | cons op ops ih =>
    intro h hI hv
    exact ih (applyOp h op)
      (applyOp_inv h op hI (hv op (List.mem_cons_self op ops)))
      (fun op2 h2 => hv op2 (List.mem_cons_of_mem op h2))

/-- The initial retry-handler state satisfies the invariant. -/
lemma init_inv : RetryHandler.init.Inv := by
  refine ⟨?_, ?_, ?_⟩ <;> norm_num [RetryHandler.init]

/-- The code's transfer end point agrees with the spec's formula. -/
lemma sendFileEnd_eq_spec (m : MediaUploader) :
    sendFileEnd m = specTransferEnd m := by
  unfold sendFileEnd specTransferEnd
  by_cases hc : m.chunkSize = 0 <;> simp [hc]

/-- When the current offset is within the file, the byte span handed to
`xhr.send` is exactly `[offset, specTransferEnd)`. -/
lemma sendFileBody_eq (m : MediaUploader) (hoff : m.offset ≤ m.fileSize) :
    sendFileBody m = (m.offset, specTransferEnd m) := by
  unfold sendFileBody blobSlice sendFileEnd specTransferEnd
  by_cases hc : m.chunkSize = 0 <;> by_cases ho : m.offset = 0 <;>
    simp [hc, ho, Prod.ext_iff] <;> omega

/-- What `extractRange_` does when it returns normally: the new offset is
the parsed bound plus one when the header carries digits, and unchanged
otherwise; no other field moves.  The `rangeOk` hypothesis bounds the new
offset. -/
lemma extractRange_bounds (m : MediaUploader) (ro : Option String)
    (m1 : MediaUploader) (h : extractRange_ m ro = some m1)
    (hok : rangeOk m.offset m.fileSize ro = true)
    (hoff : m.offset ≤ m.fileSize) :
    m.offset ≤ m1.offset ∧ m1.offset ≤ m.fileSize ∧ m1.fileSize = m.fileSize := by
  cases ro with
  | none =>
    simp only [extractRange_] at h
    cases h
    exact ⟨le_refl _, hoff, rfl⟩
  | some s =>
    simp only [extractRange_, rangeOk] at h hok
    by_cases hs : s = ""
    · rw [if_pos hs] at h
      cases h
      exact ⟨le_refl _, hoff, rfl⟩
    · rw [if_neg hs] at h
      cases hl : (digitRuns s).getLast? with
      | none =>
        rw [hl] at h
        cases h
      | some u =>
        rw [hl] at h hok
        cases h
        simp only [Bool.and_eq_true, decide_eq_true_eq] at hok
        exact ⟨hok.1, hok.2, rfl⟩

/-- A concrete uploader state used to instantiate the theorems below. -/
def sampleUploader : MediaUploader :=
  { fileSize := 10
    fileType := "video/mp4"
    contentType := "video/mp4"
    offset := 0
    chunkSize := 0
    retryHandler := RetryHandler.init
    url := some "https://session.example" }

/-! ## Claims -/

/-- C4, counterexample: the jitter is NOT confined to `[0, 1000)`.  At the
valid random draw `r = 1000/1001` the code's
`Math.floor(Math.random() * (1000 - 0 + 1) + 0)` evaluates to exactly
1000, which is outside the claimed half-open interval. -/
theorem getRandomInt_attains_1000_cex :
    (0 : ℚ) ≤ 1000 / 1001 ∧ (1000 / 1001 : ℚ) < 1
      ∧ getRandomInt_ 0 1000 (1000 / 1001) = 1000
      ∧ ¬ getRandomInt_ 0 1000 (1000 / 1001) < 1000 := by
  have h : getRandomInt_ 0 1000 (1000 / 1001) = 1000 := by
    unfold getRandomInt_
    push_cast
    norm_num
  refine ⟨by norm_num, by norm_num, h, ?_⟩
  rw [h]
  omega

/-- C4 (amended): after a retry the interval becomes
`min(2 × previousInterval + jitter, 60000)` where the jitter
`getRandomInt_(0, 1000)` is a uniformly distributed integer in the CLOSED
interval `[0, 1000]` (`⌊r·1001⌋` for `r` uniform in `[0,1)`). -/
theorem retry_interval_formula (h : RetryHandler) (r : ℚ) (h0 : 0 ≤ r)
    (h1 : r < 1) (hmax : h.maxInterval = 60000) :
    ((h.retry r).1).interval = min (2 * h.interval + getRandomInt_ 0 1000 r) 60000
      ∧ 0 ≤ getRandomInt_ 0 1000 r ∧ getRandomInt_ 0 1000 r ≤ 1000 := by
  obtain ⟨j0, j1⟩ := getRandomInt_bounds r h0 h1
  refine ⟨?_, j0, j1⟩
  show nextInterval_ h r = _
  unfold nextInterval_
  rw [hmax, mul_comm]

/-- C4 witness: the amended retry formula at the initial handler state and
the draw `r = 1/2`. -/
theorem retry_interval_formula_witness :
    ((RetryHandler.init.retry (1 / 2)).1).interval
        = min (2 * RetryHandler.init.interval + getRandomInt_ 0 1000 (1 / 2)) 60000
      ∧ 0 ≤ getRandomInt_ 0 1000 (1 / 2) ∧ getRandomInt_ 0 1000 (1 / 2) ≤ 1000 :=
  retry_interval_formula RetryHandler.init (1 / 2) (by norm_num) (by norm_num)
    (by norm_num [RetryHandler.init])

/-- C6: starting from the constructor state, under every sequence of valid
retry and reset operations the interval stays in `[1000, 60000]`
milliseconds, and one further retry (no intervening reset) never decreases
it. -/
theorem backoff_interval_invariant (ops : List BackoffOp)
    (hv : ∀ op ∈ ops, op.Valid) :
    (1000 ≤ (applyOps RetryHandler.init ops).interval
        ∧ (applyOps RetryHandler.init ops).interval ≤ 60000)
      ∧ ∀ r : ℚ, 0 ≤ r → r < 1 →
          (applyOps RetryHandler.init ops).interval
            ≤ (((applyOps RetryHandler.init ops).retry r).1).interval := by
  obtain ⟨hlo, hhi, hmax⟩ := applyOps_inv ops RetryHandler.init init_inv hv
  refine ⟨⟨hlo, hhi⟩, ?_⟩
  intro r h0 h1
  exact (nextInterval_bounds (applyOps RetryHandler.init ops) r h0 h1 hlo hhi hmax).2.2

/-- C6 witness: the in-range bounds after a concrete
retry-reset-retry sequence. -/
theorem backoff_interval_invariant_witness :
    1000 ≤ (applyOps RetryHandler.init
        [BackoffOp.retryOp (1 / 2), BackoffOp.resetOp, BackoffOp.retryOp (1 / 4)]).interval
      ∧ (applyOps RetryHandler.init
        [BackoffOp.retryOp (1 / 2), BackoffOp.resetOp, BackoffOp.retryOp (1 / 4)]).interval
          ≤ 60000 :=
  (backoff_interval_invariant
    [BackoffOp.retryOp (1 / 2), BackoffOp.resetOp, BackoffOp.retryOp (1 / 4)]
    (by
      intro op hop
      simp only [List.mem_cons, List.not_mem_nil, or_false] at hop
      rcases hop with rfl | rfl | rfl
      · exact ⟨by norm_num, by norm_num⟩
      · trivial
      · exact ⟨by norm_num, by norm_num⟩)).1

/-- C5, counterexample: a 200 response does NOT reset the backoff interval.
With the interval sitting at 3000 ms, the 200-handler invokes the
completion callback and leaves the interval at 3000 ms, not 1000 ms. -/
theorem success_200_no_reset_cex :
    ((onContentUploadSuccess_
        { fileSize := 10, fileType := "v", contentType := "v", offset := 3,
          chunkSize := 0, retryHandler := { interval := 3000, maxInterval := 60000 },
          url := some "u" }
        ⟨200, none, "done"⟩).1).retryHandler.interval = 3000
      ∧ (3000 : ℤ) ≠ 1000 :=
  ⟨rfl, by omega⟩

/-- C5 (amended): a 308 response (whose handler does not abort in
`extractRange_`) resets the backoff interval to 1000 ms; a 200/201
response leaves the interval unchanged (the session terminates through the
completion callback without touching the retry handler). -/
theorem interval_reset_only_on_308 (m : MediaUploader) (e : TransferResponse) :
    (e.status = 308 → ∀ m1, extractRange_ m e.rangeHeader = some m1 →
        ((onContentUploadSuccess_ m e).1).retryHandler.interval = 1000)
      ∧ ((e.status = 200 ∨ e.status = 201) →
        ((onContentUploadSuccess_ m e).1).retryHandler.interval
          = m.retryHandler.interval) := by
  constructor
  · intro h308 m1 hm1
    unfold onContentUploadSuccess_
    have hne : ¬(e.status = 200 ∨ e.status = 201) := by omega
    rw [if_neg hne, if_pos h308, hm1]
    rfl
  · intro h2xx
    unfold onContentUploadSuccess_
    rw [if_pos h2xx]

/-- C5 witness: the amended statement at a 308 response with no `Range`
header. -/
theorem interval_reset_only_on_308_witness :
    ((onContentUploadSuccess_ sampleUploader ⟨308, none, ""⟩).1).retryHandler.interval
      = 1000 :=
  (interval_reset_only_on_308 sampleUploader ⟨308, none, ""⟩).1 rfl sampleUploader rfl

/-- C1: on a 308 transfer response carrying a `Range` header whose last
decimal number (the reported upper bound) is `u`, the handler sets the
offset to `u + 1`, resets the backoff interval, and immediately issues the
next chunk transfer (`sendFile_` on the updated state, with no timer); on
a 308 response with no `Range` header the offset is left unchanged. -/
theorem upload_308_range_handling (m : MediaUploader) (resp s : String) (u : ℕ)
    (hs : (digitRuns s).getLast? = some u) :
    (((onContentUploadSuccess_ m ⟨308, some s, resp⟩).1).offset = u + 1
        ∧ ((onContentUploadSuccess_ m ⟨308, some s, resp⟩).1).retryHandler.interval = 1000
        ∧ (onContentUploadSuccess_ m ⟨308, some s, resp⟩).2
            = sendFile_ (onContentUploadSuccess_ m ⟨308, some s, resp⟩).1)
      ∧ ((onContentUploadSuccess_ m ⟨308, none, resp⟩).1).offset = m.offset := by
  have hs0 : s ≠ "" := by
    intro h
    rw [h] at hs
    simp [digitRuns, digitRunsAux] at hs
  have hx : extractRange_ m (some s) = some { m with offset := u + 1 } := by
    simp only [extractRange_]
    rw [if_neg hs0, hs]
  constructor
  · unfold onContentUploadSuccess_
    simp only [hx]
    norm_num
    rfl
  · rfl

/-- C1 witness: a 308 with `Range: bytes=0-41` moves the offset to 42,
resets the interval and immediately re-sends; a 308 without the header
keeps the offset. -/
theorem upload_308_range_handling_witness :
    (((onContentUploadSuccess_ sampleUploader ⟨308, some "bytes=0-41", "r"⟩).1).offset
          = 41 + 1
        ∧ ((onContentUploadSuccess_ sampleUploader
            ⟨308, some "bytes=0-41", "r"⟩).1).retryHandler.interval = 1000
        ∧ (onContentUploadSuccess_ sampleUploader ⟨308, some "bytes=0-41", "r"⟩).2
            = sendFile_ (onContentUploadSuccess_ sampleUploader
                ⟨308, some "bytes=0-41", "r"⟩).1)
      ∧ ((onContentUploadSuccess_ sampleUploader ⟨308, none, "r"⟩).1).offset
          = sampleUploader.offset :=
  upload_308_range_handling sampleUploader "r" "bytes=0-41" 41 (by decide)

/-- C2: a transfer error with a present (non-zero) status below 500
invokes the error callback exactly once with the response body and
schedules nothing; a zero status (network-level failure) or a status of
500 or more schedules, through the retry handler's timer after the current
backoff delay, a status probe whose request has an empty body, a
`Content-Range: bytes */{total}` header, and exactly the transfer
request's response handlers. -/
theorem content_error_handling (m : MediaUploader) (e : TransferResponse) (r : ℚ) :
    (e.status ≠ 0 → e.status < 500 →
        onContentUploadError_ m e r = (m, [Action.errorCallback e.response]))
      ∧ ((e.status = 0 ∨ 500 ≤ e.status) →
        onContentUploadError_ m e r
          = ({ m with retryHandler := (m.retryHandler.retry r).1 },
              [Action.scheduleResume m.retryHandler.interval]))
      ∧ resume_ m = [Action.sendRequest (resumeRequest m)]
      ∧ (resumeRequest m).bodyEmpty = true
      ∧ (resumeRequest m).bodyStart = (resumeRequest m).bodyEnd
      ∧ (resumeRequest m).contentRange = some ("bytes */" ++ toString m.fileSize)
      ∧ (resumeRequest m).onload = (transferRequest m).onload
      ∧ (resumeRequest m).onerror = (transferRequest m).onerror := by
  refine ⟨?_, ?_, rfl, rfl, rfl, rfl, rfl, rfl⟩
  · intro hnz hlt
    unfold onContentUploadError_
    rw [if_pos ⟨hnz, hlt⟩]
  · intro hcase
    have hne : ¬(e.status ≠ 0 ∧ e.status < 500) := by omega
    unfold onContentUploadError_
    rw [if_neg hne]
    rfl

/-- C2 witness: a 404 invokes only the error callback; a 503 schedules the
probe after the current interval. -/
theorem content_error_handling_witness :
    onContentUploadError_ sampleUploader ⟨404, none, "err"⟩ 0
        = (sampleUploader, [Action.errorCallback "err"])
      ∧ onContentUploadError_ sampleUploader ⟨503, none, "err"⟩ 0
        = ({ sampleUploader with
              retryHandler := (sampleUploader.retryHandler.retry 0).1 },
            [Action.scheduleResume sampleUploader.retryHandler.interval]) :=
  ⟨(content_error_handling sampleUploader ⟨404, none, "err"⟩ 0).1
      (by decide) (by decide),
    (content_error_handling sampleUploader ⟨503, none, "err"⟩ 0).2.1
      (Or.inr (by decide))⟩

/-- C3: with the offset inside the file, the transfer request's body is
exactly the byte span from `offset` to `specTransferEnd` (the whole rest
of the file when `chunkSize` is 0, else `min(offset + chunkSize, size)`),
and the `Content-Range` header has the exact form
`bytes {offset}-{end-1}/{total}`. -/
theorem sendFile_range_and_header (m : MediaUploader) (hoff : m.offset ≤ m.fileSize) :
    (transferRequest m).contentRange
        = some ("bytes " ++ toString m.offset ++ "-"
            ++ toString ((specTransferEnd m : ℤ) - 1) ++ "/" ++ toString m.fileSize)
      ∧ (transferRequest m).bodyStart = m.offset
      ∧ (transferRequest m).bodyEnd = specTransferEnd m
      ∧ sendFile_ m = [Action.sendRequest (transferRequest m)] := by
  have h1 := sendFileEnd_eq_spec m
  have h2 := sendFileBody_eq m hoff
  refine ⟨?_, ?_, ?_, rfl⟩
  · rw [show (transferRequest m).contentRange
        = some ("bytes " ++ toString m.offset ++ "-"
            ++ toString ((sendFileEnd m : ℤ) - 1) ++ "/" ++ toString m.fileSize)
        from rfl, h1]
  · rw [show (transferRequest m).bodyStart = (sendFileBody m).1 from rfl, h2]
  · rw [show (transferRequest m).bodyEnd = (sendFileBody m).2 from rfl, h2]

/-- C3 witness: the transfer range and header at a concrete uploader state
(offset 0, size 10, single-piece upload). -/
theorem sendFile_range_and_header_witness :
    (transferRequest sampleUploader).contentRange
        = some ("bytes " ++ toString sampleUploader.offset ++ "-"
            ++ toString ((specTransferEnd sampleUploader : ℤ) - 1) ++ "/"
            ++ toString sampleUploader.fileSize)
      ∧ (transferRequest sampleUploader).bodyStart = sampleUploader.offset
      ∧ (transferRequest sampleUploader).bodyEnd = specTransferEnd sampleUploader
      ∧ sendFile_ sampleUploader = [Action.sendRequest (transferRequest sampleUploader)] :=
  sendFile_range_and_header sampleUploader (by decide)

/-- C7: on an initiation response with status below 400 the raw `Location`
header becomes the session URL and the content transfer starts at once;
on a status of 400 or more, and likewise on a network-level error, the
error callback is invoked exactly once with the raw response body and
nothing is scheduled. -/
theorem initiation_response_handling (m : MediaUploader) (e : InitResponse) :
    (e.status < 400 →
        (uploadOnload m e).1.url = e.locationHeader
          ∧ (uploadOnload m e).2 = sendFile_ { m with url := e.locationHeader })
      ∧ (400 ≤ e.status →
        uploadOnload m e = (m, [Action.errorCallback e.response]))
      ∧ ∀ resp, onUploadError_ m resp = (m, [Action.errorCallback resp]) := by
  refine ⟨?_, ?_, fun resp => rfl⟩
  · intro hlt
    unfold uploadOnload
    rw [if_pos hlt]
    exact ⟨rfl, rfl⟩
  · intro hge
    have hne : ¬ e.status < 400 := by omega
    unfold uploadOnload
    rw [if_neg hne]
    rfl

/-- C7 witness: a 200 stores the returned location and starts the
transfer; a 500 reports the raw body through the error callback. -/
theorem initiation_response_handling_witness :
    ((uploadOnload sampleUploader ⟨200, some "https://sess", "ok"⟩).1.url
          = some "https://sess"
        ∧ (uploadOnload sampleUploader ⟨200, some "https://sess", "ok"⟩).2
          = sendFile_ { sampleUploader with url := some "https://sess" })
      ∧ uploadOnload sampleUploader ⟨500, none, "bad"⟩
        = (sampleUploader, [Action.errorCallback "bad"]) :=
  ⟨(initiation_response_handling sampleUploader ⟨200, some "https://sess", "ok"⟩).1
      (by decide),
    (initiation_response_handling sampleUploader ⟨500, none, "bad"⟩).2.1 (by decide)⟩

/-- C8: the transcode poll callback re-arms exactly one fixed 60000 ms
timer on status `uploaded` (after notifying the observer) and on a
query-level error (after logging it, with no backoff growth); it notifies
and stops on `processed` and on every other status value. -/
theorem poll_status_transitions (v : String) (resp : PollResponse) :
    STATUS_POLLING_INTERVAL_MILLIS = 60000
      ∧ (resp.error = none → resp.uploadStatus = "uploaded" →
        pollForVideoStatusCallback v resp
          = [PollAction.appendStatus
                ("<li>Upload status: " ++ resp.uploadStatus ++ "</li>"),
              PollAction.logContext,
              PollAction.triggerPasteWithUrl ("https://www.youtube.com/watch?v=" ++ v),
              PollAction.setPollTimeout 60000])
      ∧ (resp.error = none → resp.uploadStatus = "processed" →
        pollForVideoStatusCallback v resp
          = [PollAction.appendPlayer resp.embedHtml,
              PollAction.appendStatus "<li>Final status.</li>"])
      ∧ (resp.error = none → resp.uploadStatus ≠ "uploaded" →
          resp.uploadStatus ≠ "processed" →
        pollForVideoStatusCallback v resp
          = [PollAction.appendStatus "<li>Transcoding failed.</li>"])
      ∧ ∀ msg, resp.error = some msg →
        pollForVideoStatusCallback v resp
          = [PollAction.consoleLog msg, PollAction.setPollTimeout 60000] := by
  refine ⟨rfl, ?_, ?_, ?_, ?_⟩
  · intro he hup
    simp only [pollForVideoStatusCallback, he]
    rw [if_pos hup]
    rfl
  · intro he hpr
    have hne : resp.uploadStatus ≠ "uploaded" := by rw [hpr]; decide
    simp only [pollForVideoStatusCallback, he]
    rw [if_neg hne, if_pos hpr]
  · intro he hup hpr
    simp only [pollForVideoStatusCallback, he]
    rw [if_neg hup, if_neg hpr]
  · intro msg he
    simp only [pollForVideoStatusCallback, he]
    rfl

/-- C8 witness: a status value that is neither `uploaded` nor `processed`
appends the failure line and re-arms no timer. -/
theorem poll_status_transitions_witness :
    pollForVideoStatusCallback "vid" ⟨none, "rejected", ""⟩
      = [PollAction.appendStatus "<li>Transcoding failed.</li>"] :=
  (poll_status_transitions "vid" ⟨none, "rejected", ""⟩).2.2.2.1 rfl (by decide)
    (by decide)

/-- C9, counterexample: the offset is NOT bounded by the file size.  The
code trusts the server's `Range` header without any bound check: on a
10-byte upload, a 308 response reporting `bytes=0-100` drives the offset
to 101, past `sizeBytes = 10`. -/
theorem offset_exceeds_size_cex :
    ((onContentUploadSuccess_
        { fileSize := 10, fileType := "v", contentType := "v", offset := 0,
          chunkSize := 0, retryHandler := RetryHandler.init, url := some "u" }
        ⟨308, some "bytes=0-100", ""⟩).1).offset = 101
      ∧ ((onContentUploadSuccess_
        { fileSize := 10, fileType := "v", contentType := "v", offset := 0,
          chunkSize := 0, retryHandler := RetryHandler.init, url := some "u" }
        ⟨308, some "bytes=0-100", ""⟩).1).fileSize = 10
      ∧ ¬ (101 : ℕ) ≤ 10 :=
  ⟨rfl, rfl, by decide⟩

/-- C9 (amended): as long as every `Range` header the transfer-success
handler sees reports a bound `u` with `offset ≤ u + 1 ≤ sizeBytes`, one
handler step keeps the offset non-decreasing and bounded by the file
size. -/
theorem offset_bounds_wellbehaved (m : MediaUploader) (e : TransferResponse)
    (hoff : m.offset ≤ m.fileSize)
    (hr : rangeOk m.offset m.fileSize e.rangeHeader = true) :
    m.offset ≤ ((onContentUploadSuccess_ m e).1).offset
      ∧ ((onContentUploadSuccess_ m e).1).offset
        ≤ ((onContentUploadSuccess_ m e).1).fileSize := by
  unfold onContentUploadSuccess_
  by_cases h1 : e.status = 200 ∨ e.status = 201
  · rw [if_pos h1]
    exact ⟨le_refl _, hoff⟩
  · rw [if_neg h1]
    by_cases h2 : e.status = 308
    · rw [if_pos h2]
      cases hE : extractRange_ m e.rangeHeader with
      | none => exact ⟨le_refl _, hoff⟩
      | some m1 =>
        obtain ⟨ha, hb, hc⟩ := extractRange_bounds m e.rangeHeader m1 hE hr hoff
        refine ⟨ha, ?_⟩
        show m1.offset ≤ m1.fileSize
        omega
    · rw [if_neg h2]
      exact ⟨le_refl _, hoff⟩

/-- C9 witness: a well-behaved 308 (`Range: bytes=0-4` on a 10-byte file)
moves the offset forward and keeps it within the file. -/
theorem offset_bounds_wellbehaved_witness :
    sampleUploader.offset
        ≤ ((onContentUploadSuccess_ sampleUploader ⟨308, some "bytes=0-4", ""⟩).1).offset
      ∧ ((onContentUploadSuccess_ sampleUploader ⟨308, some "bytes=0-4", ""⟩).1).offset
        ≤ ((onContentUploadSuccess_ sampleUploader ⟨308, some "bytes=0-4", ""⟩).1).fileSize :=
  offset_bounds_wellbehaved sampleUploader ⟨308, some "bytes=0-4", ""⟩ (by decide)
    (by decide)

/-- C10: a load-delivered transfer response whose status is none of 200,
201, 308 leaves the state untouched and performs no action at all — no
callback, no request, no timer: the upload silently stalls. -/
theorem other_status_silent_stall (m : MediaUploader) (e : TransferResponse)
    (h1 : e.status ≠ 200) (h2 : e.status ≠ 201) (h3 : e.status ≠ 308) :
    onContentUploadSuccess_ m e = (m, []) := by
  have hne : ¬(e.status = 200 ∨ e.status = 201) := by omega
  unfold onContentUploadSuccess_
  rw [if_neg hne, if_neg h3]

/-- C10 witness: a 204 on content transfer produces no state change and no
action. -/
theorem other_status_silent_stall_witness :
    onContentUploadSuccess_ sampleUploader ⟨204, none, "x"⟩ = (sampleUploader, []) :=
  other_status_silent_stall sampleUploader ⟨204, none, "x"⟩ (by decide) (by decide)
    (by decide)

end YtUpload
